import Mathlib

/-!
Verification development for the halftone shader component.

The core of the repository is the GLSL fragment shader in
`src/shaders/halftone.ts` (exported as `fragmentShader`), evaluated once per
pixel.  We embed that shader shallowly: GLSL floats become real numbers,
`vec2/vec3/vec4` become structures of reals, textures become functions from
normalized coordinates to RGBA values, and each stage of `main` becomes a
named Lean definition mirroring the corresponding shader lines.  The host-side
string handling (enum-name-to-uniform maps and media-type sniffing from the
React components) is embedded as computable functions on strings.
-/

noncomputable section

/-- GLSL `vec2`. -/
@[ext] structure Vec2 where
  x : ℝ
  y : ℝ

/-- GLSL `vec3` used as an RGB color. -/
@[ext] structure Vec3 where
  r : ℝ
  g : ℝ
  b : ℝ

/-- GLSL `vec4` used as an RGBA color. -/
@[ext] structure Vec4 where
  r : ℝ
  g : ℝ
  b : ℝ
  a : ℝ

/-- GLSL swizzle `.rgb` on a `vec4`. -/
def Vec4.rgb (v : Vec4) : Vec3 := ⟨v.r, v.g, v.b⟩

/-- Componentwise `vec2` addition. -/
def vadd (u v : Vec2) : Vec2 := ⟨u.x + v.x, u.y + v.y⟩

/-- Componentwise `vec2` subtraction. -/
def vsub (u v : Vec2) : Vec2 := ⟨u.x - v.x, u.y - v.y⟩

/-- `vec2` times a scalar. -/
def vscale (v : Vec2) (k : ℝ) : Vec2 := ⟨v.x * k, v.y * k⟩

/-- The shader's `#define PI 3.14159265359` (a literal, not the real `π`). -/
def glslPI : ℝ := 3.14159265359

/-- GLSL `floor` on floats, as a real-valued function. -/
def glslFloor (x : ℝ) : ℝ := (⌊x⌋ : ℤ)

/-- GLSL `mod(x, y) = x - y * floor(x / y)`. -/
def glslMod (x y : ℝ) : ℝ := x - y * glslFloor (x / y)

/-- GLSL `clamp(x, 0.0, 1.0)`. -/
def clamp01 (x : ℝ) : ℝ := min (max x 0) 1

/-- The Hermite polynomial `t * t * (3 - 2 * t)` used by GLSL `smoothstep`. -/
def cubicG (t : ℝ) : ℝ := t * t * (3 - 2 * t)

/-- GLSL `smoothstep(e0, e1, x)` as implemented on GPUs:
`t = clamp((x - e0) / (e1 - e0), 0, 1); t*t*(3-2*t)`. -/
def smoothstepG (e0 e1 x : ℝ) : ℝ := cubicG (clamp01 ((x - e0) / (e1 - e0)))

/-- GLSL `length` of a `vec2`. -/
def length2 (v : Vec2) : ℝ := Real.sqrt (v.x ^ 2 + v.y ^ 2)

/-- Shader `rotate2D`: `mat2(c, -s, s, c) * v` with GLSL column-major
`mat2`, so the first column is `(c, -s)` and the second is `(s, c)`. -/
def rotate2D (a : ℝ) (v : Vec2) : Vec2 :=
  ⟨Real.cos a * v.x + Real.sin a * v.y, -Real.sin a * v.x + Real.cos a * v.y⟩

/-- Shader `random`: `fract(sin(dot(st.xy, vec2(12.9898, 78.233))) * 43758.5453123)`. -/
def randomG (st : Vec2) : ℝ :=
  Int.fract (Real.sin (st.x * 12.9898 + st.y * 78.233) * 43758.5453123)

/-- Shader `getBrightness`: standard luma weights. -/
def getBrightness (c : Vec3) : ℝ := 0.299 * c.r + 0.587 * c.g + 0.114 * c.b

/-- Shader `circle(p, radius) = smoothstep(radius + 0.5, radius - 0.5, length(p))`. -/
def circleG (p : Vec2) (radius : ℝ) : ℝ :=
  smoothstepG (radius + 0.5) (radius - 0.5) (length2 p)

/-- Shader `rectangle(p, size)`: box distance `max(|x| - size, |y| - size)`
fed into `smoothstep(0.5, -0.5, dist)`. -/
def rectangleG (p : Vec2) (size : ℝ) : ℝ :=
  smoothstepG 0.5 (-0.5) (max (|p.x| - size) (|p.y| - size))

/-- Shader `line(p, width) = smoothstep(width + 0.5, width - 0.5, abs(p.y))`. -/
def lineG (p : Vec2) (width : ℝ) : ℝ :=
  smoothstepG (width + 0.5) (width - 0.5) |p.y|

/-- GLSL `mix(a, b, t) = a * (1 - t) + b * t` on floats. -/
def mixR (a b t : ℝ) : ℝ := a * (1 - t) + b * t

/-- GLSL `mix` on `vec3`, componentwise. -/
def mixV3 (c1 c2 : Vec3) (t : ℝ) : Vec3 :=
  ⟨mixR c1.r c2.r t, mixR c1.g c2.g t, mixR c1.b c2.b t⟩

/-- The uniform block of the fragment shader in `src/shaders/halftone.ts`.
`halftoneType`, `dotShape`, `pattern` and `hasCustomShape` are `int` uniforms. -/
structure Uniforms where
  resolution : Vec2
  dotSize : ℝ
  spacing : ℝ
  angle : ℝ
  dotColor : Vec3
  duotoneColor2 : Vec3
  halftoneType : ℤ
  dotShape : ℤ
  pattern : ℤ
  hasCustomShape : ℤ

/-- The shader's hard-coded `vec3 backgroundColor = vec3(1.0, 1.0, 1.0)`. -/
def bgColor : Vec3 := ⟨1, 1, 1⟩

/-- Shader `main`, step 1: `rotated = rotate2D(angle * PI / 180.0) * (coord - resolution*0.5) + resolution*0.5`. -/
def rotatedOf (u : Uniforms) (coord : Vec2) : Vec2 :=
  vadd (rotate2D (u.angle * glslPI / 180) (vsub coord (vscale u.resolution 0.5)))
    (vscale u.resolution 0.5)

/-- Shader `gridIndex = floor(rotated / spacing)` (componentwise). -/
def gridIndexOf (u : Uniforms) (rotated : Vec2) : Vec2 :=
  ⟨glslFloor (rotated.x / u.spacing), glslFloor (rotated.y / u.spacing)⟩

/-- Shader `main`, pattern-offset block: the `if (pattern == …)` chain.
`pattern`: 0 grid-regular, 1 grid-alternating, 2 grid-dither, 3/4/5 radial. -/
def patternOffsetOf (u : Uniforms) (rotated : Vec2) : Vec2 :=
  if u.pattern = 1 then
    (if glslMod (gridIndexOf u rotated).y 2 = 1 then ⟨u.spacing * 0.5, 0⟩ else ⟨0, 0⟩)
  else if u.pattern = 2 then
    ⟨(randomG (gridIndexOf u rotated) - 0.5) * u.spacing * 0.3,
     (randomG (vadd (gridIndexOf u rotated) ⟨1, 0⟩) - 0.5) * u.spacing * 0.3⟩
  else if u.pattern = 3 ∨ u.pattern = 4 ∨ u.pattern = 5 then
    ⟨Real.cos (length2 (vsub rotated (vscale u.resolution 0.5)) *
        (if u.pattern = 4 then 7 else if u.pattern = 5 then 9 else 5) / u.resolution.x) *
        (u.spacing * 0.1),
     Real.sin (length2 (vsub rotated (vscale u.resolution 0.5)) *
        (if u.pattern = 4 then 7 else if u.pattern = 5 then 9 else 5) / u.resolution.x) *
        (u.spacing * 0.1)⟩
  else ⟨0, 0⟩

/-- Shader `offsetRotated = rotated - patternOffset`. -/
def offsetRotatedOf (u : Uniforms) (coord : Vec2) : Vec2 :=
  vsub (rotatedOf u coord) (patternOffsetOf u (rotatedOf u coord))

/-- Shader `gridPos = mod(offsetRotated, spacing)` (componentwise). -/
def gridPosOf (u : Uniforms) (coord : Vec2) : Vec2 :=
  ⟨glslMod (offsetRotatedOf u coord).x u.spacing,
   glslMod (offsetRotatedOf u coord).y u.spacing⟩

/-- Shader `cellCenter = gridPos - spacing * 0.5`. -/
def cellCenterOf (u : Uniforms) (coord : Vec2) : Vec2 :=
  ⟨(gridPosOf u coord).x - u.spacing * 0.5, (gridPosOf u coord).y - u.spacing * 0.5⟩

/-- Shader `gridCellWorldPos = offsetRotated - cellCenter`. -/
def gridCellWorldPosOf (u : Uniforms) (coord : Vec2) : Vec2 :=
  vsub (offsetRotatedOf u coord) (cellCenterOf u coord)

/-- Shader sample UV: rotate the cell's world position back by `-angle` and
divide componentwise by `resolution`. -/
def sampleUVOf (u : Uniforms) (coord : Vec2) : Vec2 :=
  ⟨(vadd (rotate2D (-(u.angle * glslPI / 180))
        (vsub (gridCellWorldPosOf u coord) (vscale u.resolution 0.5)))
      (vscale u.resolution 0.5)).x / u.resolution.x,
   (vadd (rotate2D (-(u.angle * glslPI / 180))
        (vsub (gridCellWorldPosOf u coord) (vscale u.resolution 0.5)))
      (vscale u.resolution 0.5)).y / u.resolution.y⟩

/-- Shader `sourceColor = texture2D(texture, sampleUV).rgb`. -/
def sourceColorOf (u : Uniforms) (tex : Vec2 → Vec4) (coord : Vec2) : Vec3 :=
  Vec4.rgb (tex (sampleUVOf u coord))

/-- Shader `brightness = getBrightness(sourceColor)`. -/
def brightnessOf (u : Uniforms) (tex : Vec2 → Vec4) (coord : Vec2) : ℝ :=
  getBrightness (sourceColorOf u tex coord)

/-- Shader `sizeFactor = 1.0 - brightness`. -/
def sizeFactorOf (u : Uniforms) (tex : Vec2 → Vec4) (coord : Vec2) : ℝ :=
  1 - brightnessOf u tex coord

/-- Shader `currentDotSize = dotSize * sizeFactor`. -/
def currentDotSizeOf (u : Uniforms) (tex : Vec2 → Vec4) (coord : Vec2) : ℝ :=
  u.dotSize * sizeFactorOf u tex coord

/-- Shader shape selection: `shape` starts at `0.0` and the `if (dotShape == …)`
chain assigns circle / rectangle / line; `dotShape == 3` leaves it at `0.0`. -/
def shapeOf (u : Uniforms) (tex : Vec2 → Vec4) (coord : Vec2) : ℝ :=
  if u.dotShape = 0 then circleG (cellCenterOf u coord) (currentDotSizeOf u tex coord * 0.5)
  else if u.dotShape = 1 then rectangleG (cellCenterOf u coord) (currentDotSizeOf u tex coord * 0.5)
  else if u.dotShape = 2 then lineG (cellCenterOf u coord) (currentDotSizeOf u tex coord * 0.2)
  else 0

/-- Shader custom-shape UV: `imageUV = (cellCenter / currentDotSize) * 0.5 + 0.5`. -/
def imageUVOf (u : Uniforms) (tex : Vec2 → Vec4) (coord : Vec2) : Vec2 :=
  ⟨(cellCenterOf u coord).x / currentDotSizeOf u tex coord * 0.5 + 0.5,
   (cellCenterOf u coord).y / currentDotSizeOf u tex coord * 0.5 + 0.5⟩

/-- Shader final-color block: the custom-shape special case followed by the
`halftoneType` compositing chain.  `ct` is the `customShapeTexture` sampler. -/
def finalColorOf (u : Uniforms) (tex ct : Vec2 → Vec4) (coord : Vec2) : Vec3 :=
  if u.dotShape = 3 ∧ u.hasCustomShape = 1 then
    (if 0 ≤ (imageUVOf u tex coord).x ∧ (imageUVOf u tex coord).x ≤ 1 ∧
        0 ≤ (imageUVOf u tex coord).y ∧ (imageUVOf u tex coord).y ≤ 1 then
      mixV3 bgColor (Vec4.rgb (ct (imageUVOf u tex coord))) (ct (imageUVOf u tex coord)).a
    else bgColor)
  else
    if u.halftoneType = 0 then mixV3 bgColor u.dotColor (shapeOf u tex coord)
    else if u.halftoneType = 1 then
      mixV3 bgColor (mixV3 u.dotColor u.duotoneColor2 (sizeFactorOf u tex coord))
        (shapeOf u tex coord)
    else if u.halftoneType = 2 then
      mixV3 bgColor (sourceColorOf u tex coord) (shapeOf u tex coord)
    else mixV3 bgColor u.dotColor (shapeOf u tex coord)

/-- Shader `main` as a function of the interpolated `uv` varying:
`coord = uv * resolution`, then `gl_FragColor = vec4(finalColor, 1.0)`. -/
def shaderMain (u : Uniforms) (tex ct : Vec2 → Vec4) (uv : Vec2) : Vec4 :=
  ⟨(finalColorOf u tex ct ⟨uv.x * u.resolution.x, uv.y * u.resolution.y⟩).r,
   (finalColorOf u tex ct ⟨uv.x * u.resolution.x, uv.y * u.resolution.y⟩).g,
   (finalColorOf u tex ct ⟨uv.x * u.resolution.x, uv.y * u.resolution.y⟩).b, 1⟩

/-- The dot color the non-custom compositing path mixes over the background:
`dotColor` for monochrome (and the CMYK fallback), the duotone interpolation
for duotone, the sampled source color for sampled. -/
def selColorOf (u : Uniforms) (tex : Vec2 → Vec4) (coord : Vec2) : Vec3 :=
  if u.halftoneType = 0 then u.dotColor
  else if u.halftoneType = 1 then mixV3 u.dotColor u.duotoneColor2 (sizeFactorOf u tex coord)
  else if u.halftoneType = 2 then sourceColorOf u tex coord
  else u.dotColor

/-- All three channels of an RGB color lie in the unit interval. -/
def unit3 (c : Vec3) : Prop :=
  0 ≤ c.r ∧ c.r ≤ 1 ∧ 0 ≤ c.g ∧ c.g ≤ 1 ∧ 0 ≤ c.b ∧ c.b ≤ 1

/-- A solid white source texture. -/
def whiteTex : Vec2 → Vec4 := fun _ => ⟨1, 1, 1, 1⟩

/-- A solid black (opaque) source texture. -/
def blackTex : Vec2 → Vec4 := fun _ => ⟨0, 0, 0, 1⟩

/-- A concrete uniform bundle: 600×400 canvas, dotSize 10, spacing 20,
angle 0, black dots, red duotone secondary, monochrome, circle, grid-regular,
no custom shape texture. -/
def baseUniforms : Uniforms :=
  ⟨⟨600, 400⟩, 10, 20, 0, ⟨0, 0, 0⟩, ⟨1, 0, 0⟩, 0, 0, 0, 0⟩

/-- `baseUniforms` with the grid-dither pattern selected. -/
def ditherUniforms : Uniforms := { baseUniforms with pattern := 2 }

/-- `baseUniforms` with the custom dot shape selected and a custom texture bound. -/
def customUniforms : Uniforms := { baseUniforms with dotShape := 3, hasCustomShape := 1 }

/-- The grid-dither offset exactly as the spec sentence words it, including the
spec's hash constant `43758.5453`: components are the hash at `gridIndex` and at
`gridIndex + (1,0)`, each recentered by `-0.5` and scaled by `0.3 × spacing`. -/
def specDitherOffset (g : Vec2) (s : ℝ) : Vec2 :=
  ⟨(Int.fract (Real.sin (g.x * 12.9898 + g.y * 78.233) * 43758.5453) - 0.5) * (0.3 * s),
   (Int.fract (Real.sin ((g.x + 1) * 12.9898 + (g.y + 0) * 78.233) * 43758.5453) - 0.5) * (0.3 * s)⟩

/-- The grid-dither offset as the spec words it but with the hash constant the
shader actually uses, `43758.5453123`. -/
def specDitherOffsetFixed (g : Vec2) (s : ℝ) : Vec2 :=
  ⟨(Int.fract (Real.sin (g.x * 12.9898 + g.y * 78.233) * 43758.5453123) - 0.5) * (0.3 * s),
   (Int.fract (Real.sin ((g.x + 1) * 12.9898 + (g.y + 0) * 78.233) * 43758.5453123) - 0.5) *
     (0.3 * s)⟩

end

/-! Host-side string handling, from `Halftone.tsx` / the REGL component:
the `typeMap`/`shapeMap`/`patternMap` lookups with the JavaScript
`map[key] || 0` fallback, and the media-type sniffing
`videoExtensions.some((ext) => src.toLowerCase().includes(ext))`. -/

/-- `typeMap = { monochrome: 0, duotone: 1, sampled: 2, cmyk: 3 }` as a lookup. -/
def typeMapLookup (s : String) : Option ℤ :=
  if s = "monochrome" then some 0
  else if s = "duotone" then some 1
  else if s = "sampled" then some 2
  else if s = "cmyk" then some 3
  else none

/-- `shapeMap = { circle: 0, rectangle: 1, line: 2, custom: 3 }` as a lookup. -/
def shapeMapLookup (s : String) : Option ℤ :=
  if s = "circle" then some 0
  else if s = "rectangle" then some 1
  else if s = "line" then some 2
  else if s = "custom" then some 3
  else none

/-- `patternMap` from the components, as a lookup. -/
def patternMapLookup (s : String) : Option ℤ :=
  if s = "grid-regular" then some 0
  else if s = "grid-alternating" then some 1
  else if s = "grid-dither" then some 2
  else if s = "radial-5" then some 3
  else if s = "radial-7" then some 4
  else if s = "radial-9" then some 5
  else none

/-- JavaScript `v || 0`: `0` when the lookup is `undefined` or the falsy `0`. -/
def jsOrZero : Option ℤ → ℤ
  | none => 0
  | some v => if v = 0 then 0 else v

/-- `typeMap[type] || 0`, the value passed to the `halftoneType` uniform. -/
def halftoneTypeCode (s : String) : ℤ := jsOrZero (typeMapLookup s)

/-- `shapeMap[dotShape] || 0`, the value passed to the `dotShape` uniform. -/
def dotShapeCode (s : String) : ℤ := jsOrZero (shapeMapLookup s)

/-- `patternMap[pattern] || 0`, the value passed to the `pattern` uniform. -/
def patternCode (s : String) : ℤ := jsOrZero (patternMapLookup s)

/-- The component's `videoExtensions` array. -/
def videoExtensions : List String := [".mp4", ".webm", ".ogg", ".mov"]

/-- JavaScript `toLowerCase` on the ASCII strings used here. -/
def jsToLower (s : String) : String := String.mk (s.data.map Char.toLower)

/-- Whether the first character list occurs at the start of the second. -/
def subAt : List Char → List Char → Bool
  | [], _ => true
  | _ :: _, [] => false
  | a :: as, b :: bs => a == b && subAt as bs

/-- Whether the first character list occurs anywhere inside the second
(JavaScript `String.prototype.includes`). -/
def containsSub (sub : List Char) : List Char → Bool
  | [] => subAt sub []
  | b :: bs => subAt sub (b :: bs) || containsSub sub bs

/-- The component's auto media-type sniff:
`videoExtensions.some((ext) => src.toLowerCase().includes(ext))`. -/
def isVideoSrc (src : String) : Bool :=
  videoExtensions.any fun ext => containsSub ext.data (jsToLower src).data

/-- The suffix of a character list starting at its last dot, if any. -/
def lastDotSuffix : List Char → Option (List Char)
  | [] => none
  | c :: rest =>
    match lastDotSuffix rest with
    | some suf => some suf
    | none => if c = '.' then some (c :: rest) else none

/-- The file extension of a URL in the sense of the spec sentence: the
lowercased substring from the last dot onward (empty when there is no dot). -/
def specFileExt (s : String) : String :=
  match lastDotSuffix (jsToLower s).data with
  | some l => String.mk l
  | none => ""

/-! ### Basic facts about the GLSL primitives -/

theorem clamp01_nonneg (x : ℝ) : 0 ≤ clamp01 x :=
  le_min (le_max_right x 0) zero_le_one

theorem clamp01_le_one (x : ℝ) : clamp01 x ≤ 1 :=
  min_le_right _ _

theorem clamp01_mono {x y : ℝ} (h : x ≤ y) : clamp01 x ≤ clamp01 y :=
  min_le_min (max_le_max h le_rfl) le_rfl

theorem clamp01_of_nonpos {x : ℝ} (h : x ≤ 0) : clamp01 x = 0 := by
  unfold clamp01
  rw [max_eq_right h, min_eq_left zero_le_one]

theorem cubicG_zero : cubicG 0 = 0 := by
  unfold cubicG; ring

theorem cubicG_nonneg {t : ℝ} (h0 : 0 ≤ t) (h1 : t ≤ 1) : 0 ≤ cubicG t := by
  unfold cubicG
  nlinarith

theorem cubicG_le_one {t : ℝ} (h0 : 0 ≤ t) (h1 : t ≤ 1) : cubicG t ≤ 1 := by
  unfold cubicG
  nlinarith [mul_nonneg (mul_self_nonneg (1 - t)) (by linarith : (0:ℝ) ≤ 1 + 2 * t)]

theorem cubicG_mono {t₁ t₂ : ℝ} (h0 : 0 ≤ t₁) (h12 : t₁ ≤ t₂) (h1 : t₂ ≤ 1) :
    cubicG t₁ ≤ cubicG t₂ := by
  unfold cubicG
  nlinarith [mul_nonneg (mul_nonneg (by linarith : (0:ℝ) ≤ t₂ - t₁) h0)
      (by linarith : (0:ℝ) ≤ 1 - t₂),
    mul_nonneg (mul_nonneg (by linarith : (0:ℝ) ≤ t₂ - t₁) (by linarith : (0:ℝ) ≤ t₂))
      (by linarith : (0:ℝ) ≤ 1 - t₁),
    mul_nonneg (mul_nonneg (by linarith : (0:ℝ) ≤ t₂ - t₁) h0)
      (by linarith : (0:ℝ) ≤ 1 - t₁),
    mul_nonneg (mul_nonneg (by linarith : (0:ℝ) ≤ t₂ - t₁) (by linarith : (0:ℝ) ≤ t₂))
      (by linarith : (0:ℝ) ≤ 1 - t₂)]

theorem cubic_clamp_mono {u v : ℝ} (h : u ≤ v) : cubicG (clamp01 u) ≤ cubicG (clamp01 v) :=
  cubicG_mono (clamp01_nonneg u) (clamp01_mono h) (clamp01_le_one v)

theorem smoothstepG_nonneg (e0 e1 x : ℝ) : 0 ≤ smoothstepG e0 e1 x :=
  cubicG_nonneg (clamp01_nonneg _) (clamp01_le_one _)

theorem smoothstepG_le_one (e0 e1 x : ℝ) : smoothstepG e0 e1 x ≤ 1 :=
  cubicG_le_one (clamp01_nonneg _) (clamp01_le_one _)

theorem smoothstepG_neg_one (e0 e1 x : ℝ) (h : e1 - e0 = -1) :
    smoothstepG e0 e1 x = cubicG (clamp01 (e0 - x)) := by
  unfold smoothstepG
  rw [h, show (x - e0) / (-1 : ℝ) = e0 - x by ring]

theorem band_mono (d : ℝ) {r₁ r₂ : ℝ} (h : r₁ ≤ r₂) :
    smoothstepG (r₁ + 0.5) (r₁ - 0.5) d ≤ smoothstepG (r₂ + 0.5) (r₂ - 0.5) d := by
  rw [smoothstepG_neg_one _ _ _ (by ring), smoothstepG_neg_one _ _ _ (by ring)]
  exact cubic_clamp_mono (by linarith)

theorem half_band_anti {d₁ d₂ : ℝ} (h : d₁ ≤ d₂) :
    smoothstepG 0.5 (-0.5) d₂ ≤ smoothstepG 0.5 (-0.5) d₁ := by
  rw [smoothstepG_neg_one _ _ _ (by norm_num), smoothstepG_neg_one _ _ _ (by norm_num)]
  exact cubic_clamp_mono (by linarith)

theorem band_zero {r d : ℝ} (hr : r ≤ 0) (hd : 1 / 2 ≤ d) :
    smoothstepG (r + 0.5) (r - 0.5) d = 0 := by
  rw [smoothstepG_neg_one _ _ _ (by ring),
    clamp01_of_nonpos (by linarith : r + 0.5 - d ≤ 0), cubicG_zero]

theorem mixR_zero (a b : ℝ) : mixR a b 0 = a := by
  unfold mixR; ring

theorem mixV3_zero (c1 c2 : Vec3) : mixV3 c1 c2 0 = c1 := by
  simp [mixV3, mixR_zero]

theorem mixR_between {a b t : ℝ} (h0 : 0 ≤ t) (h1 : t ≤ 1) :
    min a b ≤ mixR a b t ∧ mixR a b t ≤ max a b := by
  unfold mixR
  rcases le_total a b with h | h
  · rw [min_eq_left h, max_eq_right h]
    constructor <;> nlinarith
  · rw [min_eq_right h, max_eq_left h]
    constructor <;> nlinarith

theorem mixR_unit {a b t : ℝ} (ha0 : 0 ≤ a) (ha1 : a ≤ 1) (hb0 : 0 ≤ b) (hb1 : b ≤ 1)
    (h0 : 0 ≤ t) (h1 : t ≤ 1) : 0 ≤ mixR a b t ∧ mixR a b t ≤ 1 := by
  unfold mixR
  constructor <;> nlinarith

theorem glslFloor_of_Ico {x : ℝ} (h0 : 0 ≤ x) (h1 : x < 1) : glslFloor x = 0 := by
  unfold glslFloor
  rw [Int.floor_eq_zero_iff.mpr ⟨h0, h1⟩, Int.cast_zero]

theorem glslMod_add_right (x s : ℝ) (hs : s ≠ 0) : glslMod (x + s) s = glslMod x s := by
  unfold glslMod glslFloor
  rw [show (x + s) / s = x / s + 1 by field_simp, Int.floor_add_one]
  push_cast
  ring

theorem fract_ne_of_small_shift {a b : ℝ} (hne : a - b ≠ 0) (hlt : |a - b| < 1) :
    Int.fract a ≠ Int.fract b := by
  intro he
  have hfa : a - (⌊a⌋ : ℝ) = b - (⌊b⌋ : ℝ) := he
  have hab : a - b = ((⌊a⌋ - ⌊b⌋ : ℤ) : ℝ) := by push_cast; linarith
  rw [hab] at hne hlt
  have h1 : |⌊a⌋ - ⌊b⌋| < 1 := by exact_mod_cast hlt
  rcases abs_lt.mp h1 with ⟨hl, hr⟩
  have h2 : ⌊a⌋ - ⌊b⌋ = 0 := by omega
  rw [h2] at hne
  exact hne (by norm_num)

theorem sin_hash_seed_pos : 0 < Real.sin 12.9898 := by
  have h1 : (0:ℝ) < 12.9898 - 4 * Real.pi := by
    have := Real.pi_lt_d2
    linarith
  have h2 : 12.9898 - 4 * Real.pi < Real.pi := by
    have := Real.pi_gt_d6
    linarith
  have h3 : 0 < Real.sin (12.9898 - 4 * Real.pi) :=
    Real.sin_pos_of_pos_of_lt_pi h1 h2
  have h4 : Real.sin (12.9898 - 4 * Real.pi + 2 * Real.pi + 2 * Real.pi) =
      Real.sin (12.9898 - 4 * Real.pi) := by
    rw [Real.sin_add_two_pi, Real.sin_add_two_pi]
  have h5 : (12.9898 : ℝ) - 4 * Real.pi + 2 * Real.pi + 2 * Real.pi = 12.9898 := by ring
  rw [h5] at h4
  rw [h4]
  exact h3

/-! ### Stage-level scaffolding -/

theorem rotate2D_zero (v : Vec2) : rotate2D 0 v = v := by
  unfold rotate2D
  rw [Real.cos_zero, Real.sin_zero]
  ext <;> dsimp <;> ring

theorem rotatedOf_angle0 {u : Uniforms} (ha : u.angle = 0) (coord : Vec2) :
    rotatedOf u coord = coord := by
  unfold rotatedOf
  rw [ha, show (0:ℝ) * glslPI / 180 = 0 by ring, rotate2D_zero]
  unfold vadd vsub vscale
  ext <;> dsimp <;> ring

theorem patternOffsetOf_pattern0 {u : Uniforms} (hp : u.pattern = 0) (r : Vec2) :
    patternOffsetOf u r = ⟨0, 0⟩ := by
  unfold patternOffsetOf
  rw [hp]
  norm_num

theorem cellCenterOf_simple {u : Uniforms} (ha : u.angle = 0) (hp : u.pattern = 0)
    (coord : Vec2) :
    cellCenterOf u coord =
      ⟨glslMod coord.x u.spacing - u.spacing * 0.5,
       glslMod coord.y u.spacing - u.spacing * 0.5⟩ := by
  unfold cellCenterOf gridPosOf offsetRotatedOf
  rw [rotatedOf_angle0 ha, patternOffsetOf_pattern0 hp]
  unfold vsub
  norm_num

theorem sampleUVOf_simple {u : Uniforms} (ha : u.angle = 0) (hp : u.pattern = 0)
    (coord : Vec2) :
    sampleUVOf u coord =
      ⟨(coord.x - glslMod coord.x u.spacing + u.spacing * 0.5) / u.resolution.x,
       (coord.y - glslMod coord.y u.spacing + u.spacing * 0.5) / u.resolution.y⟩ := by
  unfold sampleUVOf
  rw [ha, show -((0:ℝ) * glslPI / 180) = 0 by ring, rotate2D_zero]
  unfold gridCellWorldPosOf offsetRotatedOf
  rw [rotatedOf_angle0 ha, patternOffsetOf_pattern0 hp, cellCenterOf_simple ha hp]
  unfold vadd vsub vscale
  ext <;> dsimp <;> ring

theorem patternOffsetOf_dither {u : Uniforms} (hp : u.pattern = 2) (r : Vec2) :
    patternOffsetOf u r =
      ⟨(randomG (gridIndexOf u r) - 0.5) * u.spacing * 0.3,
       (randomG (vadd (gridIndexOf u r) ⟨1, 0⟩) - 0.5) * u.spacing * 0.3⟩ := by
  unfold patternOffsetOf
  rw [hp]
  norm_num

theorem randomG_nonneg (st : Vec2) : 0 ≤ randomG st := Int.fract_nonneg _

theorem randomG_lt_one (st : Vec2) : randomG st < 1 := Int.fract_lt_one _

theorem dither_component_bound {x s : ℝ} (h0 : 0 ≤ x) (h1 : x < 1) (hs : 0 ≤ s) :
    |(x - 0.5) * s * 0.3| ≤ 0.15 * s := by
  rw [abs_mul, abs_mul]
  have ha : |x - 0.5| ≤ 0.5 := abs_le.mpr ⟨by linarith, by linarith⟩
  have hb : |s| = s := abs_of_nonneg hs
  have hc : |(0.3:ℝ)| = 0.3 := by norm_num
  rw [hb, hc]
  nlinarith

/-- Claim C2: for every pixel position, uniform bundle and textures, evaluating
the shader with `haltoneType = "cmyk"` (uniform value 3) produces output
identical to `haltoneType = "monochrome"` (uniform value 0), all other inputs
held equal: the compositing chain's final `else` is exactly the monochrome
formula. -/
theorem c2_cmyk_eq_monochrome (u : Uniforms) (tex ct : Vec2 → Vec4) (uv : Vec2) :
    shaderMain { u with halftoneType := halftoneTypeCode "cmyk" } tex ct uv =
    shaderMain { u with halftoneType := halftoneTypeCode "monochrome" } tex ct uv := rfl

/-- Claim C4: for fixed uniforms and textures the shader is a pure function of
the pixel position — re-evaluating at the same position yields the identical
color — and for the grid-dither pattern the offset factors through the integer
`gridIndex` alone: any two rotated positions with the same grid index get the
same pattern offset. -/
theorem c4_determinism :
    (∀ (u : Uniforms) (tex ct : Vec2 → Vec4) (uv : Vec2),
       shaderMain u tex ct uv = shaderMain u tex ct uv) ∧
    (∀ (u : Uniforms) (r r' : Vec2), u.pattern = 2 →
       gridIndexOf u r = gridIndexOf u r' →
       patternOffsetOf u r = patternOffsetOf u r') := by
  refine ⟨fun u tex ct uv => rfl, fun u r r' hp hg => ?_⟩
  rw [patternOffsetOf_dither hp, patternOffsetOf_dither hp, hg]

theorem c4_determinism_witness :
    shaderMain ditherUniforms whiteTex whiteTex ⟨0, 0⟩ =
      shaderMain ditherUniforms whiteTex whiteTex ⟨0, 0⟩ ∧
    patternOffsetOf ditherUniforms ⟨1, 2⟩ = patternOffsetOf ditherUniforms ⟨3, 4⟩ := by
  refine ⟨c4_determinism.1 ditherUniforms whiteTex whiteTex ⟨0, 0⟩, ?_⟩
  refine c4_determinism.2 ditherUniforms ⟨1, 2⟩ ⟨3, 4⟩ rfl ?_
  have hs : ditherUniforms.spacing = 20 := rfl
  unfold gridIndexOf
  rw [hs]
  dsimp only
  rw [glslFloor_of_Ico (by norm_num : (0:ℝ) ≤ 1 / 20) (by norm_num),
    glslFloor_of_Ico (by norm_num : (0:ℝ) ≤ 2 / 20) (by norm_num),
    glslFloor_of_Ico (by norm_num : (0:ℝ) ≤ 3 / 20) (by norm_num),
    glslFloor_of_Ico (by norm_num : (0:ℝ) ≤ 4 / 20) (by norm_num)]

/-- Claim C3 counterexample: at `gridIndex = (1, 0)` (reached from rotated
position `(20, 0)` with spacing 20) the shader's grid-dither offset differs
from the value built from the spec sentence's hash constant `43758.5453`; the
shader multiplies by `43758.5453123`. -/
theorem c3_counterexample :
    patternOffsetOf ditherUniforms ⟨20, 0⟩ ≠ specDitherOffset ⟨1, 0⟩ 20 := by
  have hg : gridIndexOf ditherUniforms ⟨20, 0⟩ = ⟨1, 0⟩ := by
    have hs : ditherUniforms.spacing = 20 := rfl
    unfold gridIndexOf glslFloor
    rw [hs]
    norm_num
  have hx : (patternOffsetOf ditherUniforms ⟨20, 0⟩).x =
      (Int.fract (Real.sin 12.9898 * 43758.5453123) - 0.5) * 6 := by
    rw [patternOffsetOf_dither rfl, hg]
    have hs : ditherUniforms.spacing = 20 := rfl
    dsimp only
    rw [hs]
    unfold randomG
    dsimp only
    norm_num
    ring
  have hspec : (specDitherOffset ⟨1, 0⟩ 20).x =
      (Int.fract (Real.sin 12.9898 * 43758.5453) - 0.5) * 6 := by
    unfold specDitherOffset
    dsimp only
    norm_num
  intro he
  have hxe := congrArg Vec2.x he
  rw [hx, hspec] at hxe
  have hfr : Int.fract (Real.sin 12.9898 * 43758.5453123) =
      Int.fract (Real.sin 12.9898 * 43758.5453) := by linarith
  have hpos := sin_hash_seed_pos
  have hne : Real.sin 12.9898 * 43758.5453123 - Real.sin 12.9898 * 43758.5453 ≠ 0 := by
    intro h0
    linarith
  have hlt : |Real.sin 12.9898 * 43758.5453123 - Real.sin 12.9898 * 43758.5453| < 1 := by
    have h1 := Real.sin_le_one 12.9898
    rw [show Real.sin 12.9898 * 43758.5453123 - Real.sin 12.9898 * 43758.5453 =
        Real.sin 12.9898 * 0.0000123 by ring, abs_mul,
      show |(0.0000123:ℝ)| = 0.0000123 by norm_num]
    have ha : |Real.sin 12.9898| ≤ 1 := abs_le.mpr ⟨by linarith, h1⟩
    linarith
  exact fract_ne_of_small_shift hne hlt hfr

/-- Claim C3 (amended): the grid-dither offset equals the spec's formula with
the shader's actual hash constant `43758.5453123` (not the spec's abbreviated
`43758.5453`): components are `fract(sin(dot(seed, (12.9898, 78.233))) *
43758.5453123)` at `seed = gridIndex` and `seed = gridIndex + (1, 0)`, each
recentered by `-0.5` and scaled by `0.3 × spacing`, hence within `±15%` of
spacing; the offset depends only on `gridIndex`, so it is identical on every
evaluation of the same cell. -/
theorem c3_amended (u : Uniforms) (r : Vec2) (hp : u.pattern = 2) (hs : 0 ≤ u.spacing) :
    patternOffsetOf u r = specDitherOffsetFixed (gridIndexOf u r) u.spacing ∧
    |(patternOffsetOf u r).x| ≤ 0.15 * u.spacing ∧
    |(patternOffsetOf u r).y| ≤ 0.15 * u.spacing ∧
    ∀ r' : Vec2, gridIndexOf u r' = gridIndexOf u r →
      patternOffsetOf u r' = patternOffsetOf u r := by
  refine ⟨?_, ?_, ?_, ?_⟩
  · rw [patternOffsetOf_dither hp]
    unfold specDitherOffsetFixed randomG vadd
    ext <;> dsimp <;> ring_nf
  · rw [patternOffsetOf_dither hp]
    dsimp only
    exact dither_component_bound (randomG_nonneg _) (randomG_lt_one _) hs
  · rw [patternOffsetOf_dither hp]
    dsimp only
    exact dither_component_bound (randomG_nonneg _) (randomG_lt_one _) hs
  · intro r' hgr
    rw [patternOffsetOf_dither hp, patternOffsetOf_dither hp, hgr]

theorem c3_amended_witness :
    ditherUniforms.pattern = 2 ∧ (0:ℝ) ≤ ditherUniforms.spacing ∧
    (patternOffsetOf ditherUniforms ⟨20, 0⟩ =
        specDitherOffsetFixed (gridIndexOf ditherUniforms ⟨20, 0⟩) ditherUniforms.spacing ∧
      |(patternOffsetOf ditherUniforms ⟨20, 0⟩).x| ≤ 0.15 * ditherUniforms.spacing ∧
      |(patternOffsetOf ditherUniforms ⟨20, 0⟩).y| ≤ 0.15 * ditherUniforms.spacing ∧
      ∀ r' : Vec2, gridIndexOf ditherUniforms r' = gridIndexOf ditherUniforms ⟨20, 0⟩ →
        patternOffsetOf ditherUniforms r' = patternOffsetOf ditherUniforms ⟨20, 0⟩) :=
  ⟨rfl, by norm_num [show ditherUniforms.spacing = 20 from rfl],
    c3_amended ditherUniforms ⟨20, 0⟩ rfl
      (by norm_num [show ditherUniforms.spacing = 20 from rfl])⟩

/-- Claim C5: for the grid-regular pattern at angle 0, the sample UV is
periodic in the pixel position with period `spacing` on both axes: the UV
computed at `p` equals the UV computed at `p + (spacing, 0)` minus
`(spacing, 0) / resolution`, and likewise along the y axis, so cell centers
repeat exactly every `spacing` pixels. -/
theorem c5_grid_periodicity (u : Uniforms) (coord : Vec2)
    (ha : u.angle = 0) (hp : u.pattern = 0) (hs : 0 < u.spacing) :
    sampleUVOf u coord =
      ⟨(sampleUVOf u ⟨coord.x + u.spacing, coord.y⟩).x - u.spacing / u.resolution.x,
       (sampleUVOf u ⟨coord.x + u.spacing, coord.y⟩).y⟩ ∧
    sampleUVOf u coord =
      ⟨(sampleUVOf u ⟨coord.x, coord.y + u.spacing⟩).x,
       (sampleUVOf u ⟨coord.x, coord.y + u.spacing⟩).y - u.spacing / u.resolution.y⟩ := by
  have hz : u.spacing ≠ 0 := ne_of_gt hs
  constructor
  · rw [sampleUVOf_simple ha hp, sampleUVOf_simple ha hp]
    dsimp only
    rw [glslMod_add_right _ _ hz]
    ext <;> dsimp <;> ring
  · rw [sampleUVOf_simple ha hp, sampleUVOf_simple ha hp]
    dsimp only
    rw [glslMod_add_right _ _ hz]
    ext <;> dsimp <;> ring

theorem c5_grid_periodicity_witness :
    baseUniforms.angle = 0 ∧ baseUniforms.pattern = 0 ∧ (0:ℝ) < baseUniforms.spacing ∧
    (sampleUVOf baseUniforms ⟨7, 11⟩ =
        ⟨(sampleUVOf baseUniforms ⟨(7:ℝ) + baseUniforms.spacing, 11⟩).x -
            baseUniforms.spacing / baseUniforms.resolution.x,
         (sampleUVOf baseUniforms ⟨(7:ℝ) + baseUniforms.spacing, 11⟩).y⟩ ∧
      sampleUVOf baseUniforms ⟨7, 11⟩ =
        ⟨(sampleUVOf baseUniforms ⟨7, (11:ℝ) + baseUniforms.spacing⟩).x,
         (sampleUVOf baseUniforms ⟨7, (11:ℝ) + baseUniforms.spacing⟩).y -
            baseUniforms.spacing / baseUniforms.resolution.y⟩) :=
  ⟨rfl, rfl, by norm_num [show baseUniforms.spacing = 20 from rfl],
    c5_grid_periodicity baseUniforms ⟨7, 11⟩ rfl rfl
      (by norm_num [show baseUniforms.spacing = 20 from rfl])⟩

/-- Claim C6: for the monochrome or sampled halftone types, with all other
inputs fixed, lowering the sampled brightness of a cell raises
`currentDotSize = dotSize * (1 - brightness)` monotonically, and at every
fixed pixel of the cell the shape mask value is non-decreasing. -/
theorem c6_monotonicity (u : Uniforms) (tex tex' : Vec2 → Vec4) (coord : Vec2)
    (htype : u.halftoneType = 0 ∨ u.halftoneType = 2)
    (hd : 0 ≤ u.dotSize)
    (hb : brightnessOf u tex' coord ≤ brightnessOf u tex coord) :
    currentDotSizeOf u tex coord = u.dotSize * (1 - brightnessOf u tex coord) ∧
    currentDotSizeOf u tex coord ≤ currentDotSizeOf u tex' coord ∧
    shapeOf u tex coord ≤ shapeOf u tex' coord := by
  have hcds : currentDotSizeOf u tex coord ≤ currentDotSizeOf u tex' coord := by
    unfold currentDotSizeOf sizeFactorOf
    exact mul_le_mul_of_nonneg_left (by linarith) hd
  refine ⟨rfl, hcds, ?_⟩
  unfold shapeOf
  by_cases h0 : u.dotShape = 0
  · rw [if_pos h0, if_pos h0]
    unfold circleG
    exact band_mono _ (by linarith)
  · rw [if_neg h0, if_neg h0]
    by_cases h1 : u.dotShape = 1
    · rw [if_pos h1, if_pos h1]
      unfold rectangleG
      exact half_band_anti (max_le_max (by linarith) (by linarith))
    · rw [if_neg h1, if_neg h1]
      by_cases h2 : u.dotShape = 2
      · rw [if_pos h2, if_pos h2]
        unfold lineG
        exact band_mono _ (by linarith)
      · rw [if_neg h2, if_neg h2]

theorem c6_monotonicity_witness :
    (baseUniforms.halftoneType = 0 ∨ baseUniforms.halftoneType = 2) ∧
    (0:ℝ) ≤ baseUniforms.dotSize ∧
    brightnessOf baseUniforms blackTex ⟨0, 0⟩ ≤ brightnessOf baseUniforms whiteTex ⟨0, 0⟩ ∧
    (currentDotSizeOf baseUniforms whiteTex ⟨0, 0⟩ =
        baseUniforms.dotSize * (1 - brightnessOf baseUniforms whiteTex ⟨0, 0⟩) ∧
      currentDotSizeOf baseUniforms whiteTex ⟨0, 0⟩ ≤
        currentDotSizeOf baseUniforms blackTex ⟨0, 0⟩ ∧
      shapeOf baseUniforms whiteTex ⟨0, 0⟩ ≤ shapeOf baseUniforms blackTex ⟨0, 0⟩) := by
  have hb : brightnessOf baseUniforms blackTex ⟨0, 0⟩ ≤
      brightnessOf baseUniforms whiteTex ⟨0, 0⟩ := by
    unfold brightnessOf sourceColorOf whiteTex blackTex getBrightness Vec4.rgb
    norm_num
  exact ⟨Or.inl rfl, by norm_num [show baseUniforms.dotSize = 10 from rfl], hb,
    c6_monotonicity baseUniforms whiteTex blackTex ⟨0, 0⟩ (Or.inl rfl)
      (by norm_num [show baseUniforms.dotSize = 10 from rfl]) hb⟩

theorem half_band_zero {d : ℝ} (hd : 1 / 2 ≤ d) : smoothstepG 0.5 (-0.5) d = 0 := by
  rw [smoothstepG_neg_one _ _ _ (by norm_num),
    clamp01_of_nonpos (by linarith : (0.5:ℝ) - d ≤ 0), cubicG_zero]

theorem finalColor_eq_mix (u : Uniforms) (tex ct : Vec2 → Vec4) (coord : Vec2)
    (h : ¬(u.dotShape = 3 ∧ u.hasCustomShape = 1)) :
    finalColorOf u tex ct coord =
      mixV3 bgColor (selColorOf u tex coord) (shapeOf u tex coord) := by
  unfold finalColorOf selColorOf
  rw [if_neg h]
  by_cases h0 : u.halftoneType = 0
  · rw [if_pos h0, if_pos h0]
  · rw [if_neg h0, if_neg h0]
    by_cases h1 : u.halftoneType = 1
    · rw [if_pos h1, if_pos h1]
    · rw [if_neg h1, if_neg h1]
      by_cases h2 : u.halftoneType = 2
      · rw [if_pos h2, if_pos h2]
      · rw [if_neg h2, if_neg h2]

theorem whiteTex_brightness (u : Uniforms) (coord : Vec2) :
    brightnessOf u whiteTex coord = 1 := by
  unfold brightnessOf sourceColorOf whiteTex getBrightness Vec4.rgb
  norm_num

/-- Claim C1 counterexample: with a pure-white source (brightness exactly 1)
`currentDotSize` is 0, but at the pixel sitting exactly on the cell center the
antialiased circle mask is `smoothstep(0.5, -0.5, 0) = 0.5`, not 0, so the
output is the midpoint between background and dot color, not the background. -/
theorem c1_counterexample :
    brightnessOf baseUniforms whiteTex ⟨10, 10⟩ = 1 ∧
    currentDotSizeOf baseUniforms whiteTex ⟨10, 10⟩ = 0 ∧
    shapeOf baseUniforms whiteTex ⟨10, 10⟩ = 1 / 2 ∧
    finalColorOf baseUniforms whiteTex whiteTex ⟨10, 10⟩ ≠ bgColor := by
  have hb := whiteTex_brightness baseUniforms ⟨10, 10⟩
  have hcds : currentDotSizeOf baseUniforms whiteTex ⟨10, 10⟩ = 0 := by
    unfold currentDotSizeOf sizeFactorOf
    rw [hb]
    ring
  have hm : glslMod (10:ℝ) baseUniforms.spacing = 10 := by
    have hs : baseUniforms.spacing = 20 := rfl
    rw [hs]
    unfold glslMod
    rw [glslFloor_of_Ico (by norm_num : (0:ℝ) ≤ 10 / 20) (by norm_num)]
    ring
  have hcc : cellCenterOf baseUniforms ⟨10, 10⟩ = ⟨0, 0⟩ := by
    rw [cellCenterOf_simple rfl rfl]
    dsimp only
    rw [hm]
    have hs : baseUniforms.spacing = 20 := rfl
    rw [hs]
    norm_num
  have hshape : shapeOf baseUniforms whiteTex ⟨10, 10⟩ = 1 / 2 := by
    unfold shapeOf
    rw [if_pos (show baseUniforms.dotShape = 0 from rfl)]
    unfold circleG
    rw [hcc, hcds]
    unfold length2
    dsimp only
    rw [show (0:ℝ) ^ 2 + 0 ^ 2 = 0 by norm_num, Real.sqrt_zero,
      show (0:ℝ) * 0.5 + 0.5 = 0.5 by norm_num,
      show (0:ℝ) * 0.5 - 0.5 = -0.5 by norm_num,
      smoothstepG_neg_one _ _ _ (by norm_num)]
    unfold clamp01 cubicG
    rw [show (0.5:ℝ) - 0 = 0.5 by norm_num, max_eq_left (by norm_num),
      min_eq_left (by norm_num)]
    norm_num
  refine ⟨hb, hcds, hshape, ?_⟩
  rw [finalColor_eq_mix _ _ _ _ (by decide)]
  have hsel : selColorOf baseUniforms whiteTex ⟨10, 10⟩ = baseUniforms.dotColor := by
    unfold selColorOf
    rw [if_pos (show baseUniforms.halftoneType = 0 from rfl)]
  rw [hsel, hshape]
  intro he
  have hr := congrArg Vec3.r he
  unfold mixV3 mixR bgColor at hr
  dsimp only at hr
  rw [show baseUniforms.dotColor.r = 0 from rfl] at hr
  norm_num at hr

/-- Claim C1 (amended): at a cell whose sampled brightness is exactly 1,
`currentDotSize = 0`; the shape mask is 0 and the output equals the background
color exactly at every pixel that is at least half a pixel away from the cell
center in the shape's own metric (Euclidean distance for circle, Chebyshev
distance for rectangle, vertical distance for line).  Pixels closer than half
a pixel keep a residual antialiasing contribution (up to `0.5` at the exact
center), so the unrestricted claim fails there. -/
theorem c1_amended (u : Uniforms) (tex ct : Vec2 → Vec4) (coord : Vec2)
    (hb : brightnessOf u tex coord = 1)
    (hfar : (u.dotShape = 0 ∧ 1 / 2 ≤ length2 (cellCenterOf u coord)) ∨
        (u.dotShape = 1 ∧ 1 / 2 ≤ max |(cellCenterOf u coord).x| |(cellCenterOf u coord).y|) ∨
        (u.dotShape = 2 ∧ 1 / 2 ≤ |(cellCenterOf u coord).y|)) :
    currentDotSizeOf u tex coord = 0 ∧
    shapeOf u tex coord = 0 ∧
    finalColorOf u tex ct coord = bgColor := by
  have hcds : currentDotSizeOf u tex coord = 0 := by
    unfold currentDotSizeOf sizeFactorOf
    rw [hb]
    ring
  have hnot3 : ¬(u.dotShape = 3 ∧ u.hasCustomShape = 1) := by
    rcases hfar with ⟨h, _⟩ | ⟨h, _⟩ | ⟨h, _⟩ <;>
      (intro hc; have := hc.1; omega)
  have hshape : shapeOf u tex coord = 0 := by
    unfold shapeOf
    rcases hfar with ⟨h, hd⟩ | ⟨h, hd⟩ | ⟨h, hd⟩
    · rw [if_pos h]
      unfold circleG
      rw [hcds, show (0:ℝ) * 0.5 = 0 by norm_num]
      exact band_zero le_rfl hd
    · rw [if_neg (by omega), if_pos h]
      unfold rectangleG
      rw [hcds, show (0:ℝ) * 0.5 = 0 by norm_num, sub_zero, sub_zero]
      exact half_band_zero hd
    · rw [if_neg (by omega), if_neg (by omega), if_pos h]
      unfold lineG
      rw [hcds, show (0:ℝ) * 0.2 = 0 by norm_num]
      exact band_zero le_rfl hd
  refine ⟨hcds, hshape, ?_⟩
  rw [finalColor_eq_mix u tex ct coord hnot3, hshape, mixV3_zero]

theorem c1_amended_witness :
    brightnessOf baseUniforms whiteTex ⟨0, 0⟩ = 1 ∧
    (baseUniforms.dotShape = 0 ∧ 1 / 2 ≤ length2 (cellCenterOf baseUniforms ⟨0, 0⟩)) ∧
    (currentDotSizeOf baseUniforms whiteTex ⟨0, 0⟩ = 0 ∧
      shapeOf baseUniforms whiteTex ⟨0, 0⟩ = 0 ∧
      finalColorOf baseUniforms whiteTex whiteTex ⟨0, 0⟩ = bgColor) := by
  have hb := whiteTex_brightness baseUniforms ⟨0, 0⟩
  have hcc : cellCenterOf baseUniforms ⟨0, 0⟩ = ⟨-10, -10⟩ := by
    rw [cellCenterOf_simple rfl rfl]
    have hs : baseUniforms.spacing = 20 := rfl
    dsimp only
    rw [hs]
    have hm : glslMod (0:ℝ) 20 = 0 := by
      unfold glslMod
      rw [show (0:ℝ) / 20 = 0 by norm_num, glslFloor_of_Ico le_rfl (by norm_num)]
      ring
    rw [hm]
    norm_num
  have hlen : 1 / 2 ≤ length2 (cellCenterOf baseUniforms ⟨0, 0⟩) := by
    rw [hcc]
    unfold length2
    dsimp only
    rw [show ((-10:ℝ)) ^ 2 + (-10:ℝ) ^ 2 = 200 by norm_num]
    have h2 : (1/2:ℝ) = Real.sqrt (1/4) := by
      rw [show (1/4:ℝ) = (1/2) ^ 2 by norm_num, Real.sqrt_sq (by norm_num)]
    rw [h2]
    exact Real.sqrt_le_sqrt (by norm_num)
  exact ⟨hb, ⟨rfl, hlen⟩,
    c1_amended baseUniforms whiteTex whiteTex ⟨0, 0⟩ hb (Or.inl ⟨rfl, hlen⟩)⟩

/-- Claim C7: when `dotShape = custom` (3) and a custom shape texture is bound
(`hasCustomShape = 1`), the sampler maps `cellCenter` to custom-texture UV by
`(cellCenter / currentDotSize) * 0.5 + 0.5`; if that UV leaves `[0,1]²` on
either axis the output is the background color, otherwise it is the custom
texel's RGB alpha-blended over the background; the shape-mask and
`haltoneType` compositing paths are bypassed entirely (the result is invariant
under changing `halftoneType`, `dotColor` and `duotoneColor2`). -/
theorem c7_custom_shape (u : Uniforms) (tex ct : Vec2 → Vec4) (coord : Vec2)
    (h3 : u.dotShape = 3) (hc : u.hasCustomShape = 1) :
    imageUVOf u tex coord =
      ⟨(cellCenterOf u coord).x / currentDotSizeOf u tex coord * 0.5 + 0.5,
       (cellCenterOf u coord).y / currentDotSizeOf u tex coord * 0.5 + 0.5⟩ ∧
    finalColorOf u tex ct coord =
      (if 0 ≤ (imageUVOf u tex coord).x ∧ (imageUVOf u tex coord).x ≤ 1 ∧
          0 ≤ (imageUVOf u tex coord).y ∧ (imageUVOf u tex coord).y ≤ 1 then
        mixV3 bgColor (Vec4.rgb (ct (imageUVOf u tex coord)))
          (ct (imageUVOf u tex coord)).a
      else bgColor) ∧
    ∀ (t : ℤ) (dc d2 : Vec3),
      finalColorOf { u with halftoneType := t, dotColor := dc, duotoneColor2 := d2 }
          tex ct coord =
        finalColorOf u tex ct coord := by
  refine ⟨rfl, ?_, ?_⟩
  · unfold finalColorOf
    rw [if_pos ⟨h3, hc⟩]
  · intro t dc d2
    have h3' : ({ u with halftoneType := t, dotColor := dc, duotoneColor2 := d2 } : Uniforms).dotShape = 3 := h3
    have hc' : ({ u with halftoneType := t, dotColor := dc, duotoneColor2 := d2 } : Uniforms).hasCustomShape = 1 := hc
    unfold finalColorOf
    rw [if_pos ⟨h3', hc'⟩, if_pos (⟨h3, hc⟩ : u.dotShape = 3 ∧ u.hasCustomShape = 1)]
    rfl

theorem c7_custom_shape_witness :
    customUniforms.dotShape = 3 ∧ customUniforms.hasCustomShape = 1 ∧
    (imageUVOf customUniforms whiteTex ⟨0, 0⟩ =
        ⟨(cellCenterOf customUniforms ⟨0, 0⟩).x /
            currentDotSizeOf customUniforms whiteTex ⟨0, 0⟩ * 0.5 + 0.5,
         (cellCenterOf customUniforms ⟨0, 0⟩).y /
            currentDotSizeOf customUniforms whiteTex ⟨0, 0⟩ * 0.5 + 0.5⟩ ∧
      finalColorOf customUniforms whiteTex blackTex ⟨0, 0⟩ =
        (if 0 ≤ (imageUVOf customUniforms whiteTex ⟨0, 0⟩).x ∧
            (imageUVOf customUniforms whiteTex ⟨0, 0⟩).x ≤ 1 ∧
            0 ≤ (imageUVOf customUniforms whiteTex ⟨0, 0⟩).y ∧
            (imageUVOf customUniforms whiteTex ⟨0, 0⟩).y ≤ 1 then
          mixV3 bgColor (Vec4.rgb (blackTex (imageUVOf customUniforms whiteTex ⟨0, 0⟩)))
            (blackTex (imageUVOf customUniforms whiteTex ⟨0, 0⟩)).a
        else bgColor) ∧
      ∀ (t : ℤ) (dc d2 : Vec3),
        finalColorOf { customUniforms with halftoneType := t, dotColor := dc, duotoneColor2 := d2 }
            whiteTex blackTex ⟨0, 0⟩ =
          finalColorOf customUniforms whiteTex blackTex ⟨0, 0⟩) :=
  ⟨rfl, rfl, c7_custom_shape customUniforms whiteTex blackTex ⟨0, 0⟩ rfl rfl⟩

theorem bgColor_unit : unit3 bgColor := by
  unfold unit3 bgColor
  norm_num

theorem brightness_unit {c : Vec3} (h : unit3 c) :
    0 ≤ getBrightness c ∧ getBrightness c ≤ 1 := by
  obtain ⟨h1, h2, h3, h4, h5, h6⟩ := h
  unfold getBrightness
  constructor <;> linarith

theorem mixV3_unit {c1 c2 : Vec3} {t : ℝ} (h1 : unit3 c1) (h2 : unit3 c2)
    (ht0 : 0 ≤ t) (ht1 : t ≤ 1) : unit3 (mixV3 c1 c2 t) := by
  obtain ⟨a1, a2, a3, a4, a5, a6⟩ := h1
  obtain ⟨b1, b2, b3, b4, b5, b6⟩ := h2
  unfold unit3 mixV3
  dsimp only
  obtain ⟨r1, r2⟩ := mixR_unit a1 a2 b1 b2 ht0 ht1
  obtain ⟨g1, g2⟩ := mixR_unit a3 a4 b3 b4 ht0 ht1
  obtain ⟨w1, w2⟩ := mixR_unit a5 a6 b5 b6 ht0 ht1
  exact ⟨r1, r2, g1, g2, w1, w2⟩

/-- Claim C10: the shape mask always lies in [0,1] (smoothstep is clamped);
in the non-custom path the output is the convex combination
`mix(background, selected dot color, shape)`, so every output channel lies
between the corresponding background and dot-color channels; and when the
configured colors and the sampled source color are in unit range the output
RGB stays in [0,1]. -/
theorem c10_convexity (u : Uniforms) (tex ct : Vec2 → Vec4) (coord : Vec2) :
    (0 ≤ shapeOf u tex coord ∧ shapeOf u tex coord ≤ 1) ∧
    (¬(u.dotShape = 3 ∧ u.hasCustomShape = 1) →
      (min bgColor.r (selColorOf u tex coord).r ≤ (finalColorOf u tex ct coord).r ∧
        (finalColorOf u tex ct coord).r ≤ max bgColor.r (selColorOf u tex coord).r) ∧
      (min bgColor.g (selColorOf u tex coord).g ≤ (finalColorOf u tex ct coord).g ∧
        (finalColorOf u tex ct coord).g ≤ max bgColor.g (selColorOf u tex coord).g) ∧
      (min bgColor.b (selColorOf u tex coord).b ≤ (finalColorOf u tex ct coord).b ∧
        (finalColorOf u tex ct coord).b ≤ max bgColor.b (selColorOf u tex coord).b)) ∧
    (¬(u.dotShape = 3 ∧ u.hasCustomShape = 1) →
      unit3 u.dotColor → unit3 u.duotoneColor2 → unit3 (sourceColorOf u tex coord) →
      unit3 (finalColorOf u tex ct coord)) := by
  have hsh : 0 ≤ shapeOf u tex coord ∧ shapeOf u tex coord ≤ 1 := by
    unfold shapeOf circleG rectangleG lineG
    split_ifs
    · exact ⟨smoothstepG_nonneg _ _ _, smoothstepG_le_one _ _ _⟩
    · exact ⟨smoothstepG_nonneg _ _ _, smoothstepG_le_one _ _ _⟩
    · exact ⟨smoothstepG_nonneg _ _ _, smoothstepG_le_one _ _ _⟩
    · exact ⟨le_rfl, zero_le_one⟩
  refine ⟨hsh, ?_, ?_⟩
  · intro hpath
    rw [finalColor_eq_mix u tex ct coord hpath]
    unfold mixV3
    dsimp only
    exact ⟨mixR_between hsh.1 hsh.2, mixR_between hsh.1 hsh.2, mixR_between hsh.1 hsh.2⟩
  · intro hpath hdc hd2 hsrc
    have hbr := brightness_unit hsrc
    have hsf0 : 0 ≤ sizeFactorOf u tex coord := by
      unfold sizeFactorOf brightnessOf
      linarith [hbr.2]
    have hsf1 : sizeFactorOf u tex coord ≤ 1 := by
      unfold sizeFactorOf brightnessOf
      linarith [hbr.1]
    have hsel : unit3 (selColorOf u tex coord) := by
      unfold selColorOf
      split_ifs
      · exact hdc
      · exact mixV3_unit hdc hd2 hsf0 hsf1
      · exact hsrc
      · exact hdc
    rw [finalColor_eq_mix u tex ct coord hpath]
    exact mixV3_unit bgColor_unit hsel hsh.1 hsh.2

theorem c10_convexity_witness :
    (0 ≤ shapeOf baseUniforms whiteTex ⟨0, 0⟩ ∧ shapeOf baseUniforms whiteTex ⟨0, 0⟩ ≤ 1) ∧
    ¬(baseUniforms.dotShape = 3 ∧ baseUniforms.hasCustomShape = 1) ∧
    unit3 baseUniforms.dotColor ∧ unit3 baseUniforms.duotoneColor2 ∧
    unit3 (sourceColorOf baseUniforms whiteTex ⟨0, 0⟩) ∧
    ((min bgColor.r (selColorOf baseUniforms whiteTex ⟨0, 0⟩).r ≤
        (finalColorOf baseUniforms whiteTex whiteTex ⟨0, 0⟩).r ∧
      (finalColorOf baseUniforms whiteTex whiteTex ⟨0, 0⟩).r ≤
        max bgColor.r (selColorOf baseUniforms whiteTex ⟨0, 0⟩).r) ∧
     (min bgColor.g (selColorOf baseUniforms whiteTex ⟨0, 0⟩).g ≤
        (finalColorOf baseUniforms whiteTex whiteTex ⟨0, 0⟩).g ∧
      (finalColorOf baseUniforms whiteTex whiteTex ⟨0, 0⟩).g ≤
        max bgColor.g (selColorOf baseUniforms whiteTex ⟨0, 0⟩).g) ∧
     (min bgColor.b (selColorOf baseUniforms whiteTex ⟨0, 0⟩).b ≤
        (finalColorOf baseUniforms whiteTex whiteTex ⟨0, 0⟩).b ∧
      (finalColorOf baseUniforms whiteTex whiteTex ⟨0, 0⟩).b ≤
        max bgColor.b (selColorOf baseUniforms whiteTex ⟨0, 0⟩).b)) ∧
    unit3 (finalColorOf baseUniforms whiteTex whiteTex ⟨0, 0⟩) := by
  have hpath : ¬(baseUniforms.dotShape = 3 ∧ baseUniforms.hasCustomShape = 1) := by decide
  have hdc : unit3 baseUniforms.dotColor := by
    unfold unit3
    rw [show baseUniforms.dotColor = ⟨0, 0, 0⟩ from rfl]
    norm_num
  have hd2 : unit3 baseUniforms.duotoneColor2 := by
    unfold unit3
    rw [show baseUniforms.duotoneColor2 = ⟨1, 0, 0⟩ from rfl]
    norm_num
  have hsrc : unit3 (sourceColorOf baseUniforms whiteTex ⟨0, 0⟩) := by
    unfold unit3 sourceColorOf whiteTex Vec4.rgb
    norm_num
  exact ⟨(c10_convexity baseUniforms whiteTex whiteTex ⟨0, 0⟩).1, hpath, hdc, hd2, hsrc,
    (c10_convexity baseUniforms whiteTex whiteTex ⟨0, 0⟩).2.1 hpath,
    (c10_convexity baseUniforms whiteTex whiteTex ⟨0, 0⟩).2.2 hpath hdc hd2 hsrc⟩

/-- Claim C8: any halftone-type, dot-shape or pattern string outside the
recognized enum values is mapped by the components' `map[key] || 0` lookups to
uniform value 0 — exactly the first-listed variant (monochrome / circle /
grid-regular); the lookups are total functions, so no failure is raised. -/
theorem c8_enum_fallback (s t p : String)
    (hs : s ∉ ["monochrome", "duotone", "sampled", "cmyk"])
    (ht : t ∉ ["circle", "rectangle", "line", "custom"])
    (hp : p ∉ ["grid-regular", "grid-alternating", "grid-dither",
        "radial-5", "radial-7", "radial-9"]) :
    halftoneTypeCode s = halftoneTypeCode "monochrome" ∧
    dotShapeCode t = dotShapeCode "circle" ∧
    patternCode p = patternCode "grid-regular" := by
  simp only [List.mem_cons, List.not_mem_nil, or_false, not_or] at hs ht hp
  obtain ⟨hs1, hs2, hs3, hs4⟩ := hs
  obtain ⟨ht1, ht2, ht3, ht4⟩ := ht
  obtain ⟨hp1, hp2, hp3, hp4, hp5, hp6⟩ := hp
  refine ⟨?_, ?_, ?_⟩
  · unfold halftoneTypeCode typeMapLookup
    rw [if_neg hs1, if_neg hs2, if_neg hs3, if_neg hs4]
    rfl
  · unfold dotShapeCode shapeMapLookup
    rw [if_neg ht1, if_neg ht2, if_neg ht3, if_neg ht4]
    rfl
  · unfold patternCode patternMapLookup
    rw [if_neg hp1, if_neg hp2, if_neg hp3, if_neg hp4, if_neg hp5, if_neg hp6]
    rfl

theorem c8_enum_fallback_witness :
    ("wavy" ∉ ["monochrome", "duotone", "sampled", "cmyk"]) ∧
    ("hexagon" ∉ ["circle", "rectangle", "line", "custom"]) ∧
    ("spiral" ∉ ["grid-regular", "grid-alternating", "grid-dither",
        "radial-5", "radial-7", "radial-9"]) ∧
    (halftoneTypeCode "wavy" = halftoneTypeCode "monochrome" ∧
      dotShapeCode "hexagon" = dotShapeCode "circle" ∧
      patternCode "spiral" = patternCode "grid-regular") :=
  ⟨by decide, by decide, by decide,
    c8_enum_fallback "wavy" "hexagon" "spiral" (by decide) (by decide) (by decide)⟩

/-- Claim C9 counterexample: with `mediaType = auto` the component classifies
`"https://example.com/photo.mp4.png"` as video because the lowercased URL
contains `".mp4"` as a substring, although the URL's file extension is
`".png"`, which is not among the video extensions — so classification is not
equivalent to the file extension being one of `.mp4/.webm/.ogg/.mov`. -/
theorem c9_counterexample :
    isVideoSrc "https://example.com/photo.mp4.png" = true ∧
    specFileExt "https://example.com/photo.mp4.png" = ".png" ∧
    ".png" ∉ videoExtensions :=
  ⟨by decide, by decide, by decide⟩

/-- Claim C9 (amended): with `mediaType = auto`, a source URL is classified as
video if and only if its lowercased text contains one of `".mp4"`, `".webm"`,
`".ogg"`, `".mov"` as a substring (not necessarily as its file extension), and
as image otherwise. -/
theorem c9_amended (src : String) :
    isVideoSrc src = true ↔
      (containsSub ".mp4".data (jsToLower src).data = true ∨
       containsSub ".webm".data (jsToLower src).data = true ∨
       containsSub ".ogg".data (jsToLower src).data = true ∨
       containsSub ".mov".data (jsToLower src).data = true) := by
  unfold isVideoSrc videoExtensions
  simp [List.any_cons, List.any_nil, Bool.or_eq_true]
